import Mathlib

/-!
Verification of the resume rendering pipeline (scripts/render_resume.py).

The development shallowly embeds the script: Python/JSON values become an
inductive `PyVal`, Python dicts become association lists with update-or-append
assignment, filesystem and template-engine effects are abstracted into an
environment record, and every fallible operation returns `Option` or
`Except`.  The embedded functions keep the source names: `latex_escape`,
`join_tech`, `format_date`, `format_duration`, `load_all_configs`,
`render_resume`, `main`.
-/

namespace ResumeRender

/-- Python/JSON values, as far as the script manipulates them. -/
inductive PyVal where
  | pstr (s : String)
  | pint (n : Int)
  | pbool (b : Bool)
  | pnone
  | plist (xs : List PyVal)
  | pdict (fields : List (String × PyVal))

/-- Python truthiness (`bool(v)`), used by `if not text`, `if not technologies`,
`not context[k]` and `if end_date` in the source. -/
def pyTruthy : PyVal → Bool
  | .pstr s => !(s == "")
  | .pint n => !(n == 0)
  | .pbool b => b
  | .pnone => false
  | .plist xs => !xs.isEmpty
  | .pdict fields => !fields.isEmpty

/-- Python `str(v)` for the values `join_tech` can reach.  The script only
applies `str` to non-dict elements (the `isinstance(tech, dict)` branch handles
dicts), and the theorems below restrict lists to scalar elements, so the
container cases are never evaluated; their printed form is abbreviated. -/
def pyStr : PyVal → String
  | .pstr s => s
  | .pint n => toString n
  | .pbool b => if b then "True" else "False"
  | .pnone => "None"
  | .plist _ => "[list]"
  | .pdict _ => "\x7bdict\x7d"

/-- Python dict lookup (`d[k]` / `k in d`), first matching key of the
association list.  Keys stay unique under `dictSet`, mirroring a real dict. -/
def dictLookup : List (String × PyVal) → String → Option PyVal
  | [], _ => none
  | p :: rest, k => if p.1 == k then some p.2 else dictLookup rest k

/-- Python dict assignment `d[k] = v`: update the existing entry in place,
else append, preserving insertion order as CPython does. -/
def dictSet : List (String × PyVal) → String → PyVal → List (String × PyVal)
  | [], k, v => [(k, v)]
  | p :: rest, k, v => if p.1 == k then (k, v) :: rest else p :: dictSet rest k v

/-- Does the needle occur at the head of the haystack. -/
def subAt : List Char → List Char → Bool
  | [], _ => true
  | _ :: _, [] => false
  | a :: as, b :: bs => a == b && subAt as bs

/-- Python substring test `needle in haystack` on character lists. -/
def hasSub (n : List Char) : List Char → Bool
  | [] => n.isEmpty
  | x :: rest => subAt n (x :: rest) || hasSub n rest

/-- Python `k in v` for a string key `k`: key membership for dicts, element
equality for lists, substring test for strings, `TypeError` otherwise. -/
def pyContainsStr (v : PyVal) (k : String) : Except String Bool :=
  match v with
  | .pdict fields => .ok (dictLookup fields k).isSome
  | .plist xs => .ok (xs.any fun x => match x with | .pstr s => s == k | _ => false)
  | .pstr s => .ok (hasSub k.toList s.toList)
  | _ => .error "TypeError: argument is not iterable"

/-- Python `v[k]` for a string key `k`: dict lookup (`KeyError` when absent),
`TypeError` for every non-dict value. -/
def pySubscriptStr (v : PyVal) (k : String) : Except String PyVal :=
  match v with
  | .pdict fields =>
    match dictLookup fields k with
    | some x => .ok x
    | none => .error ("KeyError: " ++ k)
  | _ => .error "TypeError: value is not subscriptable with a str"

/-! ## latex_escape -/

/-- One pass of Python `result.replace(char, escaped)` for a single-character
needle: every occurrence of `c` is replaced by `rep`, and the replacement text
is not rescanned within the same pass, exactly as `str.replace` behaves. -/
def replaceChar (c : Char) (rep : List Char) : List Char → List Char
  | [] => []
  | x :: xs => (if x == c then rep else [x]) ++ replaceChar c rep xs

/-- The `replacements` table of `latex_escape`, in source order: backslash
first, then the other special characters. -/
def replacements : List (Char × String) :=
  [ ('\\', "\\textbackslash\x7b\x7d"),
    ('&', "\\&"),
    ('%', "\\%"),
    ('$', "\\$"),
    ('#', "\\#"),
    ('_', "\\_"),
    (Char.ofNat 123, "\\\x7b"),
    (Char.ofNat 125, "\\\x7d"),
    ('~', "\\textasciitilde\x7b\x7d"),
    ('^', "\\textasciicircum\x7b\x7d"),
    ('<', "\\textless\x7b\x7d"),
    ('>', "\\textgreater\x7b\x7d") ]

/-- Embeds `latex_escape(text)`: empty input short-circuits to `""`; otherwise the
replacement passes are applied in table order, each one a full scan of the
current result. -/
def latex_escape (text : String) : String :=
  if text = "" then ""
  else (replacements.foldl (fun acc p => replaceChar p.1 p.2.toList acc) text.toList).asString

/-- The filter as Jinja invokes it: an absent (`None`) argument is falsy, so
`if not text` returns `""` for it exactly as for the empty string. -/
def latex_escape_arg (text : Option String) : String :=
  match text with
  | none => ""
  | some s => latex_escape s

/-! ## join_tech -/

/-- The per-element step of `join_tech`: `tech.get("name", "")` for dicts,
`str(tech)` for everything else. -/
def pyName (tech : PyVal) : PyVal :=
  match tech with
  | .pdict fields => (dictLookup fields "name").getD (.pstr "")
  | t => .pstr (pyStr t)

/-- Is the value a Python `str`. -/
def isStrVal : PyVal → Bool
  | .pstr _ => true
  | _ => false

/-- Underlying string of a `str` value (default `""` elsewhere; only applied
under an `isStrVal` guard). -/
def strValOf : PyVal → String
  | .pstr s => s
  | _ => ""

/-- Python `sep.join(vals)`: succeeds only when every element is a `str`,
otherwise `TypeError` (modelled as `none`). -/
def joinStrs (sep : String) (vals : List PyVal) : Option String :=
  if vals.all isStrVal then some (String.intercalate sep (vals.map strValOf)) else none

/-- Embeds `join_tech(technologies)`: falsy input (absent or empty list) yields `""`;
otherwise names are collected per element and the truthy ones are joined with
`", "` (`", ".join(filter(None, names))`). -/
def join_tech (technologies : Option (List PyVal)) : Option String :=
  match technologies with
  | none => some ""
  | some techs =>
    if techs.isEmpty then some ""
    else joinStrs ", " ((techs.map pyName).filter pyTruthy)

/-- Spec-side element class for the C9 claim: a plain string, or a record
whose `name` field holds a string. -/
def isC9elem : PyVal → Bool
  | .pstr _ => true
  | .pdict fields =>
    match dictLookup fields "name" with
    | some (.pstr _) => true
    | _ => false
  | _ => false

/-- Spec-side name of an element in the C9 claim. -/
def elemName : PyVal → String
  | .pdict fields =>
    match dictLookup fields "name" with
    | some (.pstr s) => s
    | _ => ""
  | v => pyStr v

/-- Scalar (non-container) values: the element domain of the C10 claim. -/
def isScalar : PyVal → Bool
  | .pstr _ => true
  | .pint _ => true
  | .pbool _ => true
  | .pnone => true
  | _ => false

/-! ## format_duration -/

/-- The `months` table of `format_duration`. -/
def months : List String :=
  ["Jan", "Feb", "Mar", "Apr", "May", "Jun",
   "Jul", "Aug", "Sep", "Oct", "Nov", "Dec"]

/-- Python list indexing `xs[i]`: negative indices count from the end, out of
range raises `IndexError` (modelled as `none`). -/
def pyIndex (xs : List String) (i : Int) : Option String :=
  let j : Int := if i < 0 then (xs.length : Int) + i else i
  if 0 ≤ j ∧ j < (xs.length : Int) then xs.get? j.toNat else none

/-- Numeric value of a digit list. -/
def digitsVal (cs : List Char) : Nat :=
  cs.foldl (fun n c => n * 10 + (c.toNat - 48)) 0

/-- Digits of a nonempty all-digit list, else `none`. -/
def digitsToNat (cs : List Char) : Option Nat :=
  if !cs.isEmpty && cs.all Char.isDigit then some (digitsVal cs) else none

/-- Python `int(s)` on a character list: an optional sign followed by a
nonempty digit run; anything else raises `ValueError` (modelled as `none`).
(The whitespace and underscore tolerance of `int` is irrelevant here.) -/
def pyIntL (cs : List Char) : Option Int :=
  match cs with
  | '-' :: rest => (digitsToNat rest).map fun n => -(n : Int)
  | '+' :: rest => (digitsToNat rest).map fun n => (n : Int)
  | _ => (digitsToNat cs).map fun n => (n : Int)

/-- Python `int(s)` on strings. -/
def pyInt (s : String) : Option Int := pyIntL s.toList

/-- Python `s.split(sep)` for a single-character separator (no maxsplit):
`"" → [""]`, adjacent separators produce empty fields. -/
def splitOnChar (c : Char) : List Char → List (List Char)
  | [] => [[]]
  | x :: xs =>
    let r := splitOnChar c xs
    if x == c then [] :: r
    else
      match r with
      | [] => [[x]]
      | h :: t => (x :: h) :: t

/-- The nested `format_date` of `format_duration`: split on `-`, parse
`parts[0]` and `parts[1]` with `int`, index `months[month - 1]`, and format
`f"{months[month - 1]} {year}"`.  Any raised exception is `none`. -/
def format_date (date_str : String) : Option String :=
  match splitOnChar '-' date_str.toList with
  | p0 :: p1 :: _ =>
    match pyIntL p0, pyIntL p1 with
    | some year, some month =>
      match pyIndex months (month - 1) with
      | some mname => some (mname ++ " " ++ toString year)
      | none => none
    | _, _ => none
  | _ => none

/-- Embeds `format_duration(start_date, end_date=None)`: format the start, then the
end when one is given and truthy, else the literal `Present`. -/
def format_duration (start_date : String) (end_date : Option String) : Option String :=
  match format_date start_date with
  | none => none
  | some start =>
    match
      (match end_date with
       | some d => if d = "" then some "Present" else format_date d
       | none => some "Present") with
    | none => none
    | some e => some (start ++ " -- " ++ e)

/-- Spec-side month table: the standard three-letter English abbreviations,
1-indexed, from the words of the claim. -/
def specMonthAbbrev : Int → String
  | 1 => "Jan"
  | 2 => "Feb"
  | 3 => "Mar"
  | 4 => "Apr"
  | 5 => "May"
  | 6 => "Jun"
  | 7 => "Jul"
  | 8 => "Aug"
  | 9 => "Sep"
  | 10 => "Oct"
  | 11 => "Nov"
  | 12 => "Dec"
  | _ => ""

/-! ## Config loading and merging -/

/-- State of one JSON file on disk: absent, present but malformed, or present
and parsing to a value. -/
inductive FileState where
  | absent
  | invalid
  | valid (v : PyVal)

/-- A file that is either absent or parses to a JSON object (the pipeline
treats each config document as an opaque mapping). -/
def absentOrDict : FileState → Bool
  | .absent => true
  | .valid (.pdict _) => true
  | _ => false

/-- The rendering context: a Python dict from variable names to values. -/
abbrev Ctx := List (String × PyVal)

/-- The `config_files` table of `load_all_configs`, in source order. -/
def config_files : List (String × String) :=
  [ ("profile", "profile.json"),
    ("experience_data", "experience.json"),
    ("projects_data", "projects.json"),
    ("skills_data", "skills.json"),
    ("education_data", "education.json"),
    ("contact", "contact.json"),
    ("seo", "seo.json") ]

/-- The loading loop of `load_all_configs`: a file that exists is parsed
(`load_json_file` calls `sys.exit(1)` on malformed JSON, modelled as `.error`);
an absent file is skipped with a warning, leaving its key out of the context. -/
def loadLoop (dir : String → FileState) : List (String × String) → Ctx → Except String Ctx
  | [], ctx => .ok ctx
  | p :: rest, ctx =>
    match dir p.2 with
    | .absent => loadLoop dir rest ctx
    | .invalid => .error ("Error: Invalid JSON in " ++ p.2)
    | .valid v => loadLoop dir rest (dictSet ctx p.1 v)

/-- Pure form of the loading loop when no file is malformed (proof-side). -/
def loadFold (dir : String → FileState) : List (String × String) → Ctx → Ctx
  | [], ctx => ctx
  | p :: rest, ctx =>
    match dir p.2 with
    | .valid v => loadFold dir rest (dictSet ctx p.1 v)
    | _ => loadFold dir rest ctx

/-- One promotion rule of `load_all_configs`:
`if src in context and sub in context[src]: context[dst] = context[src][sub]`.
`in` and subscripting on a non-mapping value raise, modelled by `Except`. -/
def promote (ctx : Ctx) (src sub dst : String) : Except String Ctx :=
  match dictLookup ctx src with
  | none => .ok ctx
  | some v =>
    match pyContainsStr v sub with
    | .error e => .error e
    | .ok b =>
      if b then
        match pySubscriptStr v sub with
        | .error e => .error e
        | .ok x => .ok (dictSet ctx dst x)
      else .ok ctx

/-- Pure form of a promotion rule when the source value is a mapping
(proof-side). -/
def promotePure (ctx : Ctx) (src sub dst : String) : Ctx :=
  match dictLookup ctx src with
  | some (.pdict fields) =>
    match dictLookup fields sub with
    | some x => dictSet ctx dst x
    | none => ctx
  | _ => ctx

/-- Embeds `load_all_configs(data_dir)`: load the seven config files, then apply the
four promotion rules in source order. -/
def load_all_configs (dir : String → FileState) : Except String Ctx :=
  match loadLoop dir config_files [] with
  | .error e => .error e
  | .ok ctx0 =>
    match promote ctx0 "experience_data" "experience" "experience" with
    | .error e => .error e
    | .ok ctx1 =>
      match promote ctx1 "projects_data" "projects" "projects" with
      | .error e => .error e
      | .ok ctx2 =>
        match promote ctx2 "skills_data" "categories" "skills" with
        | .error e => .error e
        | .ok ctx3 =>
          match promote ctx3 "education_data" "education" "education" with
          | .error e => .error e
          | .ok ctx4 => .ok ctx4

/-- The context right after the loading loop (proof-side). -/
def ctx0F (dir : String → FileState) : Ctx := loadFold dir config_files []

/-- The context after the experience promotion (proof-side). -/
def ctx1F (dir : String → FileState) : Ctx :=
  promotePure (ctx0F dir) "experience_data" "experience" "experience"

/-- The context after the projects promotion (proof-side). -/
def ctx2F (dir : String → FileState) : Ctx :=
  promotePure (ctx1F dir) "projects_data" "projects" "projects"

/-- The context after the skills promotion (proof-side). -/
def ctx3F (dir : String → FileState) : Ctx :=
  promotePure (ctx2F dir) "skills_data" "categories" "skills"

/-- The final context produced by a run in which every present file parses to
a mapping (proof-side normal form of `load_all_configs`). -/
def ctxFinal (dir : String → FileState) : Ctx :=
  promotePure (ctx3F dir) "education_data" "education" "education"

/-! ## render_resume and main -/

/-- The `required_keys` list of `render_resume`. -/
def required_keys : List String := ["profile", "experience", "education"]

/-- The predicate of the validation comprehension:
`k not in context or not context[k]`. -/
def keyMissing (context : Ctx) (k : String) : Bool :=
  match dictLookup context k with
  | none => true
  | some v => !pyTruthy v

/-- Embeds `missing = [k for k in required_keys if k not in context or not context[k]]`. -/
def missingOf (context : Ctx) : List String :=
  required_keys.filter (keyMissing context)

/-- How a `render_resume` call ends: `sys.exit(code)` raised inside it, or a
normal return of its boolean. -/
inductive ExitOrReturn where
  | exited (code : Nat)
  | returned (success : Bool)

/-- Observable outcome of one `render_resume` call: how it ended, the error
message it printed (if any), whether `template.render` was invoked, whether
the output-file write was started, and the successful write (path, content)
if one completed. -/
structure RunResult where
  result : ExitOrReturn
  errMsg : Option String
  renderAttempted : Bool
  writeAttempted : Bool
  written : Option (List String × String)

/-- Abstracted effects of a run: the data directory content, the outcome of
`env.get_template`, of `template.render(**context)` as a function of the
context, and of writing a given path/content pair. -/
structure RenderEnv where
  dataDir : String → FileState
  templateLoad : Except String Unit
  renderTemplate : Ctx → Except String String
  writeFile : List String → String → Except String Unit

/-- Embeds `render_resume`: load and merge configs (a malformed file exits the
process), validate the three required keys (all missing names in one message,
no render attempted), load the template, render it, and only then open and
write `PROJECT_ROOT / output_file`. -/
def render_resume (env : RenderEnv) (projectRoot : List String) (output_file : String) : RunResult :=
  match load_all_configs env.dataDir with
  | .error e => ⟨.exited 1, some e, false, false, none⟩
  | .ok context =>
    if missingOf context = [] then
      match env.templateLoad with
      | .error e => ⟨.returned false, some ("Error loading template: " ++ e), false, false, none⟩
      | .ok _ =>
        match env.renderTemplate context with
        | .error e => ⟨.returned false, some ("Error rendering template: " ++ e), true, false, none⟩
        | .ok rendered =>
          match env.writeFile (projectRoot ++ [output_file]) rendered with
          | .error e =>
            ⟨.returned false, some ("Error writing output file: " ++ e), true, true, none⟩
          | .ok _ =>
            ⟨.returned true, none, true, true, some (projectRoot ++ [output_file], rendered)⟩
    else
      ⟨.returned false,
       some ("Error: Missing required config data: " ++ String.intercalate ", " (missingOf context)),
       false, false, none⟩

/-- Embeds `Path(p).name`: the final component of a path. -/
def pathName (p : List String) : String := p.getLast?.getD ""

/-- Embeds `main()`: after argument parsing, `render_resume` receives only
`output_path.name`, and the process exit status is the loader exit code or
`0 if success else 1`. -/
def main (env : RenderEnv) (projectRoot : List String) (outputArg : List String) : Nat × RunResult :=
  let r := render_resume env projectRoot (pathName outputArg)
  match r.result with
  | .exited c => (c, r)
  | .returned b => (if b then 0 else 1, r)

/-! ## Concrete inputs used by witnesses and counterexamples -/

/-- A data directory holding `profile.json`, `experience.json` (with an
`experience` list) and `education.json` (with an `education` list); no other
file exists. -/
def scenarioDir : String → FileState := fun f =>
  if f = "profile.json" then .valid (.pdict [("name", .pstr "Ada")])
  else if f = "experience.json" then
    .valid (.pdict [("experience", .plist [.pdict [("company", .pstr "X")]])])
  else if f = "education.json" then
    .valid (.pdict [("education", .plist [.pstr "BSc"])])
  else .absent

/-- An environment in which every pipeline step succeeds. -/
def happyEnv : RenderEnv :=
  ⟨scenarioDir, .ok (), fun _ => .ok "TEX", fun _ _ => .ok ()⟩

/-- A data directory holding only `profile.json`. -/
def profileOnlyDir : String → FileState := fun f =>
  if f = "profile.json" then .valid (.pdict [("name", .pstr "Ada")]) else .absent

/-- An environment whose data directory holds only `profile.json`. -/
def profileOnlyEnv : RenderEnv :=
  ⟨profileOnlyDir, .ok (), fun _ => .ok "TEX", fun _ _ => .ok ()⟩

/-- The context `load_all_configs` produces from `profileOnlyDir`. -/
def profileOnlyCtx : Ctx := [("profile", .pdict [("name", .pstr "Ada")])]

/-- The two halves of the C6 promoted-key characterization for one rule:
the promoted key is present exactly when the source key holds a mapping
containing the subkey, and then its value is the subkey value. -/
def promotedOk (ctx : Ctx) (src sub dst : String) : Prop :=
  ((dictLookup ctx dst).isSome = true ↔
    ∃ fields v, dictLookup ctx src = some (.pdict fields) ∧ dictLookup fields sub = some v) ∧
  (∀ fields v, dictLookup ctx src = some (.pdict fields) → dictLookup fields sub = some v →
    dictLookup ctx dst = some v)

end ResumeRender

namespace ResumeRender

theorem dictLookup_dictSet_self (d : Ctx) (k : String) (v : PyVal) :
    dictLookup (dictSet d k v) k = some v := by
  induction d with
  | nil => simp [dictSet, dictLookup]
  | cons p rest ih =>
    by_cases h : p.1 = k
    · simp [dictSet, h, dictLookup]
    · simp [dictSet, h, dictLookup, ih]

theorem dictLookup_dictSet_ne (d : Ctx) (k : String) (v : PyVal) (q : String) (h : q ≠ k) :
    dictLookup (dictSet d k v) q = dictLookup d q := by
  have h' : k ≠ q := Ne.symm h
  induction d with
  | nil => simp [dictSet, dictLookup, h']
  | cons p rest ih =>
    by_cases hp : p.1 = k
    · simp [dictSet, hp, dictLookup, h']
    · simp [dictSet, hp, dictLookup, ih]

theorem lookup_loadFold_not_mem (dir : String → FileState) (l : List (String × String))
    (ctx : Ctx) (k : String) (h : ∀ p ∈ l, p.1 ≠ k) :
    dictLookup (loadFold dir l ctx) k = dictLookup ctx k := by
  induction l generalizing ctx with
  | nil => rfl
  | cons p rest ih =>
    have hp : p.1 ≠ k := h p (List.mem_cons_self p rest)
    have hrest : ∀ q ∈ rest, q.1 ≠ k := fun q hq => h q (List.mem_cons_of_mem p hq)
    cases hd : dir p.2 with
    | absent => simp [loadFold, hd, ih _ hrest]
    | invalid => simp [loadFold, hd, ih _ hrest]
    | valid v =>
      simp [loadFold, hd, ih _ hrest, dictLookup_dictSet_ne _ _ _ _ (Ne.symm hp)]

theorem lookup_loadFold_mem (dir : String → FileState) (l : List (String × String))
    (ctx : Ctx) (p : String × String) (hnd : (l.map Prod.fst).Nodup) (hmem : p ∈ l) :
    dictLookup (loadFold dir l ctx) p.1 =
      (match dir p.2 with
       | .valid v => some v
       | _ => dictLookup ctx p.1) := by
  induction l generalizing ctx with
  | nil => cases hmem
  | cons q rest ih =>
    have hnd' : (rest.map Prod.fst).Nodup := (List.nodup_cons.mp hnd).2
    have hhead : q.1 ∉ rest.map Prod.fst := (List.nodup_cons.mp hnd).1
    rcases List.mem_cons.mp hmem with rfl | hmem'
    · have hk : ∀ r ∈ rest, r.1 ≠ p.1 := by
        intro r hr he
        exact hhead (he ▸ List.mem_map_of_mem Prod.fst hr)
      cases hd : dir p.2 with
      | valid v =>
        simp [loadFold, hd, lookup_loadFold_not_mem dir rest _ _ hk, dictLookup_dictSet_self]
      | absent => simp [loadFold, hd, lookup_loadFold_not_mem dir rest _ _ hk]
      | invalid => simp [loadFold, hd, lookup_loadFold_not_mem dir rest _ _ hk]
    · have hqp : q.1 ≠ p.1 := by
        intro he
        exact hhead (he ▸ List.mem_map_of_mem Prod.fst hmem')
      cases hd : dir q.2 with
      | valid v =>
        rw [loadFold]
        simp only [hd]
        rw [ih _ hnd' hmem']
        cases hd2 : dir p.2 <;> simp [dictLookup_dictSet_ne _ _ _ _ (Ne.symm hqp)]
      | absent =>
        rw [loadFold]
        simp only [hd]
        exact ih _ hnd' hmem'
      | invalid =>
        rw [loadFold]
        simp only [hd]
        exact ih _ hnd' hmem'

theorem loadLoop_eq_ok (dir : String → FileState) (l : List (String × String)) (ctx : Ctx)
    (h : ∀ p ∈ l, dir p.2 ≠ .invalid) :
    loadLoop dir l ctx = .ok (loadFold dir l ctx) := by
  induction l generalizing ctx with
  | nil => rfl
  | cons p rest ih =>
    have hrest : ∀ q ∈ rest, dir q.2 ≠ .invalid := fun q hq => h q (List.mem_cons_of_mem p hq)
    cases hd : dir p.2 with
    | absent => simp [loadLoop, loadFold, hd, ih _ hrest]
    | invalid => exact absurd hd (h p (List.mem_cons_self p rest))
    | valid v => simp [loadLoop, loadFold, hd, ih _ hrest]

theorem promote_eq_ok (ctx : Ctx) (src sub dst : String)
    (h : ∀ v, dictLookup ctx src = some v → ∃ fields, v = .pdict fields) :
    promote ctx src sub dst = .ok (promotePure ctx src sub dst) := by
  cases hs : dictLookup ctx src with
  | none => simp [promote, promotePure, hs]
  | some v =>
    obtain ⟨fields, rfl⟩ := h v hs
    cases hf : dictLookup fields sub with
    | none => simp [promote, promotePure, hs, pyContainsStr, hf, pySubscriptStr]
    | some x => simp [promote, promotePure, hs, pyContainsStr, hf, pySubscriptStr]

theorem lookup_promotePure_ne (ctx : Ctx) (src sub dst k : String) (h : k ≠ dst) :
    dictLookup (promotePure ctx src sub dst) k = dictLookup ctx k := by
  cases hs : dictLookup ctx src with
  | none => simp [promotePure, hs]
  | some v =>
    cases v with
    | pdict fields =>
      cases hf : dictLookup fields sub with
      | none => simp [promotePure, hs, hf]
      | some x => simp [promotePure, hs, hf, dictLookup_dictSet_ne _ _ _ _ h]
    | pstr s => simp [promotePure, hs]
    | pint n => simp [promotePure, hs]
    | pbool b => simp [promotePure, hs]
    | pnone => simp [promotePure, hs]
    | plist xs => simp [promotePure, hs]

theorem lookup_promotePure_dst (ctx : Ctx) (src sub dst : String)
    (h : dictLookup ctx dst = none) :
    dictLookup (promotePure ctx src sub dst) dst =
      (match dictLookup ctx src with
       | some (.pdict fields) => dictLookup fields sub
       | _ => none) := by
  cases hs : dictLookup ctx src with
  | none => simp [promotePure, hs, h]
  | some v =>
    cases v with
    | pdict fields =>
      cases hf : dictLookup fields sub with
      | none => simp [promotePure, hs, hf, h]
      | some x => simp [promotePure, hs, hf, dictLookup_dictSet_self]
    | pstr s => simp [promotePure, hs, h]
    | pint n => simp [promotePure, hs, h]
    | pbool b => simp [promotePure, hs, h]
    | pnone => simp [promotePure, hs, h]
    | plist xs => simp [promotePure, hs, h]

theorem promotedOk_of (ctx : Ctx) (src sub dst : String)
    (hdst : dictLookup ctx dst =
      (match dictLookup ctx src with
       | some (.pdict fields) => dictLookup fields sub
       | _ => none)) :
    promotedOk ctx src sub dst := by
  constructor
  · rw [hdst]
    cases hs : dictLookup ctx src with
    | none => simp [hs]
    | some v =>
      cases v with
      | pdict fields =>
        cases hf : dictLookup fields sub with
        | none => simp [hs, hf]
        | some x =>
          simp only [hs, hf, Option.isSome_some, true_iff]
          exact ⟨fields, x, rfl, hf⟩
      | pstr s => simp [hs]
      | pint n => simp [hs]
      | pbool b => simp [hs]
      | pnone => simp [hs]
      | plist xs => simp [hs]
  · intro fields v hf hv
    rw [hdst, hf]
    exact hv

end ResumeRender

namespace ResumeRender

theorem absentOrDict_cases (s : FileState) (h : absentOrDict s = true) :
    s = .absent ∨ ∃ fields, s = .valid (.pdict fields) := by
  cases s with
  | absent => exact Or.inl rfl
  | invalid => simp [absentOrDict] at h
  | valid v =>
    cases v with
    | pdict fields => exact Or.inr ⟨fields, rfl⟩
    | pstr s => simp [absentOrDict] at h
    | pint n => simp [absentOrDict] at h
    | pbool b => simp [absentOrDict] at h
    | pnone => simp [absentOrDict] at h
    | plist xs => simp [absentOrDict] at h

theorem lookup_ctx0 (dir : String → FileState) (p : String × String) (hp : p ∈ config_files) :
    dictLookup (ctx0F dir) p.1 =
      (match dir p.2 with
       | .valid v => some v
       | _ => none) := by
  have h := lookup_loadFold_mem dir config_files [] p (by decide) hp
  rw [ctx0F, h]
  cases dir p.2 <;> rfl

theorem lookup_ctx0_notkey (dir : String → FileState) (k : String)
    (h : ∀ p ∈ config_files, p.1 ≠ k) :
    dictLookup (ctx0F dir) k = none := by
  rw [ctx0F, lookup_loadFold_not_mem dir config_files [] k h]
  rfl

theorem dict_of_valid (dir : String → FileState)
    (h : ∀ p ∈ config_files, absentOrDict (dir p.2) = true)
    (src fn : String) (hmem : (src, fn) ∈ config_files) :
    ∀ v, dictLookup (ctx0F dir) src = some v → ∃ fields, v = .pdict fields := by
  intro v hv
  have hl := lookup_ctx0 dir (src, fn) hmem
  rw [hl] at hv
  rcases absentOrDict_cases _ (h (src, fn) hmem) with ha | ⟨fields, ha⟩
  · rw [ha] at hv
    cases hv
  · rw [ha] at hv
    have hv' : some (PyVal.pdict fields) = some v := hv
    injection hv' with hv2
    exact ⟨fields, hv2.symm⟩

theorem load_all_configs_eq (dir : String → FileState)
    (h : ∀ p ∈ config_files, absentOrDict (dir p.2) = true) :
    load_all_configs dir = .ok (ctxFinal dir) := by
  have hinv : ∀ p ∈ config_files, dir p.2 ≠ .invalid := by
    intro p hp he
    have hb := h p hp
    rw [he] at hb
    simp [absentOrDict] at hb
  have hC1 : dictLookup (ctx1F dir) "projects_data" = dictLookup (ctx0F dir) "projects_data" :=
    lookup_promotePure_ne _ _ _ _ _ (by decide)
  have hC2 : dictLookup (ctx2F dir) "skills_data" = dictLookup (ctx0F dir) "skills_data" := by
    rw [ctx2F, lookup_promotePure_ne _ _ _ _ _ (by decide),
        ctx1F, lookup_promotePure_ne _ _ _ _ _ (by decide)]
  have hC3 : dictLookup (ctx3F dir) "education_data" = dictLookup (ctx0F dir) "education_data" := by
    rw [ctx3F, lookup_promotePure_ne _ _ _ _ _ (by decide),
        ctx2F, lookup_promotePure_ne _ _ _ _ _ (by decide),
        ctx1F, lookup_promotePure_ne _ _ _ _ _ (by decide)]
  have hd1 : ∀ v, dictLookup (ctx0F dir) "experience_data" = some v → ∃ fields, v = .pdict fields :=
    dict_of_valid dir h "experience_data" "experience.json" (by decide)
  have hd2 : ∀ v, dictLookup (ctx1F dir) "projects_data" = some v → ∃ fields, v = .pdict fields := by
    intro v hv
    rw [hC1] at hv
    exact dict_of_valid dir h "projects_data" "projects.json" (by decide) v hv
  have hd3 : ∀ v, dictLookup (ctx2F dir) "skills_data" = some v → ∃ fields, v = .pdict fields := by
    intro v hv
    rw [hC2] at hv
    exact dict_of_valid dir h "skills_data" "skills.json" (by decide) v hv
  have hd4 : ∀ v, dictLookup (ctx3F dir) "education_data" = some v → ∃ fields, v = .pdict fields := by
    intro v hv
    rw [hC3] at hv
    exact dict_of_valid dir h "education_data" "education.json" (by decide) v hv
  have hloop : loadLoop dir config_files [] = .ok (ctx0F dir) :=
    loadLoop_eq_ok dir config_files [] hinv
  have hp1 : promote (ctx0F dir) "experience_data" "experience" "experience" = .ok (ctx1F dir) :=
    promote_eq_ok _ _ _ _ hd1
  have hp2 : promote (ctx1F dir) "projects_data" "projects" "projects" = .ok (ctx2F dir) :=
    promote_eq_ok _ _ _ _ hd2
  have hp3 : promote (ctx2F dir) "skills_data" "categories" "skills" = .ok (ctx3F dir) :=
    promote_eq_ok _ _ _ _ hd3
  have hp4 : promote (ctx3F dir) "education_data" "education" "education" = .ok (ctxFinal dir) :=
    promote_eq_ok _ _ _ _ hd4
  simp only [load_all_configs, hloop, hp1, hp2, hp3, hp4]

end ResumeRender

namespace ResumeRender

/-- C6: the rendering context has a top-level key for a config document iff
its file exists (a missing file leaves the key omitted, not empty); it has a
promoted key iff the source key holds a mapping containing the named subkey,
and then the promoted value is exactly that subkey value; with only
profile.json, experience.json (an experience list) and education.json (an
education list) present, the context has profile, experience and education and
no projects or skills key. -/
theorem c6_context_shape (dir : String → FileState)
    (h : ∀ p ∈ config_files, absentOrDict (dir p.2) = true) :
    (load_all_configs dir = .ok (ctxFinal dir) ∧
     (∀ p ∈ config_files,
        (dictLookup (ctxFinal dir) p.1).isSome = true ↔ ∃ v, dir p.2 = .valid v) ∧
     promotedOk (ctxFinal dir) "experience_data" "experience" "experience" ∧
     promotedOk (ctxFinal dir) "projects_data" "projects" "projects" ∧
     promotedOk (ctxFinal dir) "skills_data" "categories" "skills" ∧
     promotedOk (ctxFinal dir) "education_data" "education" "education") ∧
    (load_all_configs scenarioDir = .ok (ctxFinal scenarioDir) ∧
     (dictLookup (ctxFinal scenarioDir) "profile").isSome = true ∧
     (dictLookup (ctxFinal scenarioDir) "experience").isSome = true ∧
     (dictLookup (ctxFinal scenarioDir) "education").isSome = true ∧
     dictLookup (ctxFinal scenarioDir) "projects" = none ∧
     dictLookup (ctxFinal scenarioDir) "skills" = none) := by
  refine ⟨⟨load_all_configs_eq dir h, ?_, ?_, ?_, ?_, ?_⟩,
          rfl, rfl, rfl, rfl, rfl, rfl⟩
  · intro p hp
    have hne : p.1 ≠ "experience" ∧ p.1 ≠ "projects" ∧ p.1 ≠ "skills" ∧ p.1 ≠ "education" := by
      have hp2 := hp
      simp only [config_files, List.mem_cons, List.not_mem_nil, or_false] at hp2
      rcases hp2 with rfl | rfl | rfl | rfl | rfl | rfl | rfl <;>
        exact ⟨by decide, by decide, by decide, by decide⟩
    rw [ctxFinal, lookup_promotePure_ne _ _ _ _ _ hne.2.2.2,
        ctx3F, lookup_promotePure_ne _ _ _ _ _ hne.2.2.1,
        ctx2F, lookup_promotePure_ne _ _ _ _ _ hne.2.1,
        ctx1F, lookup_promotePure_ne _ _ _ _ _ hne.1,
        lookup_ctx0 dir p hp]
    cases hd : dir p.2 with
    | absent => simp
    | invalid => simp
    | valid v => simp
  · -- experience promotion
    have x1 : dictLookup (ctx0F dir) "experience" = none :=
      lookup_ctx0_notkey dir _ (by decide)
    have x2 : dictLookup (ctx1F dir) "experience" =
        (match dictLookup (ctx0F dir) "experience_data" with
         | some (.pdict fields) => dictLookup fields "experience"
         | _ => none) :=
      lookup_promotePure_dst _ _ _ _ x1
    have x5 : dictLookup (ctxFinal dir) "experience" = dictLookup (ctx1F dir) "experience" := by
      rw [ctxFinal, lookup_promotePure_ne _ _ _ _ _ (by decide),
          ctx3F, lookup_promotePure_ne _ _ _ _ _ (by decide),
          ctx2F, lookup_promotePure_ne _ _ _ _ _ (by decide)]
    have x4 : dictLookup (ctxFinal dir) "experience_data" =
        dictLookup (ctx0F dir) "experience_data" := by
      rw [ctxFinal, lookup_promotePure_ne _ _ _ _ _ (by decide),
          ctx3F, lookup_promotePure_ne _ _ _ _ _ (by decide),
          ctx2F, lookup_promotePure_ne _ _ _ _ _ (by decide),
          ctx1F, lookup_promotePure_ne _ _ _ _ _ (by decide)]
    apply promotedOk_of
    rw [x4, x5, x2]
  · -- projects promotion
    have p1 : dictLookup (ctx1F dir) "projects" = none := by
      rw [ctx1F, lookup_promotePure_ne _ _ _ _ _ (by decide)]
      exact lookup_ctx0_notkey dir _ (by decide)
    have p2 : dictLookup (ctx2F dir) "projects" =
        (match dictLookup (ctx1F dir) "projects_data" with
         | some (.pdict fields) => dictLookup fields "projects"
         | _ => none) :=
      lookup_promotePure_dst _ _ _ _ p1
    have p3 : dictLookup (ctx1F dir) "projects_data" =
        dictLookup (ctx0F dir) "projects_data" := by
      rw [ctx1F, lookup_promotePure_ne _ _ _ _ _ (by decide)]
    have p5 : dictLookup (ctxFinal dir) "projects" = dictLookup (ctx2F dir) "projects" := by
      rw [ctxFinal, lookup_promotePure_ne _ _ _ _ _ (by decide),
          ctx3F, lookup_promotePure_ne _ _ _ _ _ (by decide)]
    have p4 : dictLookup (ctxFinal dir) "projects_data" =
        dictLookup (ctx0F dir) "projects_data" := by
      rw [ctxFinal, lookup_promotePure_ne _ _ _ _ _ (by decide),
          ctx3F, lookup_promotePure_ne _ _ _ _ _ (by decide),
          ctx2F, lookup_promotePure_ne _ _ _ _ _ (by decide),
          ctx1F, lookup_promotePure_ne _ _ _ _ _ (by decide)]
    apply promotedOk_of
    rw [p4, p5, p2, p3]
  · -- skills promotion
    have s1 : dictLookup (ctx2F dir) "skills" = none := by
      rw [ctx2F, lookup_promotePure_ne _ _ _ _ _ (by decide),
          ctx1F, lookup_promotePure_ne _ _ _ _ _ (by decide)]
      exact lookup_ctx0_notkey dir _ (by decide)
    have s2 : dictLookup (ctx3F dir) "skills" =
        (match dictLookup (ctx2F dir) "skills_data" with
         | some (.pdict fields) => dictLookup fields "categories"
         | _ => none) :=
      lookup_promotePure_dst _ _ _ _ s1
    have s3 : dictLookup (ctx2F dir) "skills_data" =
        dictLookup (ctx0F dir) "skills_data" := by
      rw [ctx2F, lookup_promotePure_ne _ _ _ _ _ (by decide),
          ctx1F, lookup_promotePure_ne _ _ _ _ _ (by decide)]
    have s5 : dictLookup (ctxFinal dir) "skills" = dictLookup (ctx3F dir) "skills" := by
      rw [ctxFinal, lookup_promotePure_ne _ _ _ _ _ (by decide)]
    have s4 : dictLookup (ctxFinal dir) "skills_data" =
        dictLookup (ctx0F dir) "skills_data" := by
      rw [ctxFinal, lookup_promotePure_ne _ _ _ _ _ (by decide),
          ctx3F, lookup_promotePure_ne _ _ _ _ _ (by decide),
          ctx2F, lookup_promotePure_ne _ _ _ _ _ (by decide),
          ctx1F, lookup_promotePure_ne _ _ _ _ _ (by decide)]
    apply promotedOk_of
    rw [s4, s5, s2, s3]
  · -- education promotion
    have e1 : dictLookup (ctx3F dir) "education" = none := by
      rw [ctx3F, lookup_promotePure_ne _ _ _ _ _ (by decide),
          ctx2F, lookup_promotePure_ne _ _ _ _ _ (by decide),
          ctx1F, lookup_promotePure_ne _ _ _ _ _ (by decide)]
      exact lookup_ctx0_notkey dir _ (by decide)
    have e2 : dictLookup (ctxFinal dir) "education" =
        (match dictLookup (ctx3F dir) "education_data" with
         | some (.pdict fields) => dictLookup fields "education"
         | _ => none) :=
      lookup_promotePure_dst _ _ _ _ e1
    have e3 : dictLookup (ctx3F dir) "education_data" =
        dictLookup (ctx0F dir) "education_data" := by
      rw [ctx3F, lookup_promotePure_ne _ _ _ _ _ (by decide),
          ctx2F, lookup_promotePure_ne _ _ _ _ _ (by decide),
          ctx1F, lookup_promotePure_ne _ _ _ _ _ (by decide)]
    have e4 : dictLookup (ctxFinal dir) "education_data" =
        dictLookup (ctx0F dir) "education_data" := by
      rw [ctxFinal, lookup_promotePure_ne _ _ _ _ _ (by decide)]
      exact e3
    apply promotedOk_of
    rw [e4, e2, e3]

theorem c6_witness :
    (load_all_configs scenarioDir = .ok (ctxFinal scenarioDir) ∧
     (∀ p ∈ config_files,
        (dictLookup (ctxFinal scenarioDir) p.1).isSome = true ↔ ∃ v, scenarioDir p.2 = .valid v) ∧
     promotedOk (ctxFinal scenarioDir) "experience_data" "experience" "experience" ∧
     promotedOk (ctxFinal scenarioDir) "projects_data" "projects" "projects" ∧
     promotedOk (ctxFinal scenarioDir) "skills_data" "categories" "skills" ∧
     promotedOk (ctxFinal scenarioDir) "education_data" "education" "education") ∧
    (load_all_configs scenarioDir = .ok (ctxFinal scenarioDir) ∧
     (dictLookup (ctxFinal scenarioDir) "profile").isSome = true ∧
     (dictLookup (ctxFinal scenarioDir) "experience").isSome = true ∧
     (dictLookup (ctxFinal scenarioDir) "education").isSome = true ∧
     dictLookup (ctxFinal scenarioDir) "projects" = none ∧
     dictLookup (ctxFinal scenarioDir) "skills" = none) :=
  c6_context_shape scenarioDir (by decide)

end ResumeRender

namespace ResumeRender

/-- C4: after promotion the run checks that profile, experience and education
are present and truthy; when any are missing, all missing names are reported
in one message and the call returns failure without loading or rendering the
template (and the process exits with status 1). -/
theorem c4_required_validation (env : RenderEnv) (projectRoot : List String)
    (output_file : String) (ctx : Ctx)
    (hload : load_all_configs env.dataDir = .ok ctx)
    (hmiss : missingOf ctx ≠ []) :
    render_resume env projectRoot output_file =
      ⟨.returned false,
       some ("Error: Missing required config data: " ++ String.intercalate ", " (missingOf ctx)),
       false, false, none⟩ ∧
    (main env projectRoot [output_file]).1 = 1 := by
  have hr : render_resume env projectRoot output_file =
      ⟨.returned false,
       some ("Error: Missing required config data: " ++ String.intercalate ", " (missingOf ctx)),
       false, false, none⟩ := by
    simp only [render_resume, hload]
    rw [if_neg hmiss]
  have hp : pathName [output_file] = output_file := rfl
  refine ⟨hr, ?_⟩
  simp only [main, hp, hr]
  rfl

theorem c4_witness :
    render_resume profileOnlyEnv ["REPO"] "resume.tex" =
      ⟨.returned false,
       some ("Error: Missing required config data: " ++
         String.intercalate ", " (missingOf profileOnlyCtx)),
       false, false, none⟩ ∧
    (main profileOnlyEnv ["REPO"] ["resume.tex"]).1 = 1 :=
  c4_required_validation profileOnlyEnv ["REPO"] "resume.tex" profileOnlyCtx rfl (by decide)

/-- C5: the process exit status is 0 exactly when every pipeline step
succeeded (and is 1 otherwise); the output write is attempted only after
loading, validation, template load and rendering have all succeeded; and when
no write is attempted nothing is written. -/
theorem c5_exit_and_write_discipline (env : RenderEnv) (projectRoot : List String)
    (outputArg : List String) :
    ((main env projectRoot outputArg).1 = 0 ∨ (main env projectRoot outputArg).1 = 1) ∧
    ((main env projectRoot outputArg).1 = 0 ↔
      ∃ ctx s, load_all_configs env.dataDir = .ok ctx ∧ missingOf ctx = [] ∧
        env.templateLoad = .ok () ∧ env.renderTemplate ctx = .ok s ∧
        env.writeFile (projectRoot ++ [pathName outputArg]) s = .ok () ∧
        (main env projectRoot outputArg).2.written =
          some (projectRoot ++ [pathName outputArg], s)) ∧
    ((main env projectRoot outputArg).2.writeAttempted = true →
      ∃ ctx s, load_all_configs env.dataDir = .ok ctx ∧ missingOf ctx = [] ∧
        env.templateLoad = .ok () ∧ env.renderTemplate ctx = .ok s) ∧
    ((main env projectRoot outputArg).2.writeAttempted = false →
      (main env projectRoot outputArg).2.written = none) := by
  cases hl : load_all_configs env.dataDir with
  | error e => simp [main, render_resume, hl]
  | ok ctx =>
    by_cases hm : missingOf ctx = []
    · cases ht : env.templateLoad with
      | error e => simp [main, render_resume, hl, hm, ht]
      | ok u =>
        cases hr : env.renderTemplate ctx with
        | error e => simp [main, render_resume, hl, hm, ht, hr]
        | ok s =>
          cases hw : env.writeFile (projectRoot ++ [pathName outputArg]) s with
          | error e => simp [main, render_resume, hl, hm, ht, hr, hw]
          | ok u2 => simp [main, render_resume, hl, hm, ht, hr, hw]
    · simp [main, render_resume, hl, hm]

end ResumeRender

namespace ResumeRender

theorem splitOnChar_no (c : Char) (b : List Char) (h : c ∉ b) : splitOnChar c b = [b] := by
  induction b with
  | nil => rfl
  | cons x xs ih =>
    have hx : ¬(x = c) := by
      intro he
      exact h (by rw [he]; exact List.mem_cons_self c xs)
    have hxs : c ∉ xs := fun hm => h (List.mem_cons_of_mem x hm)
    simp [splitOnChar, hx, ih hxs]

theorem splitOnChar_sep (c : Char) (a b : List Char) (h : c ∉ a) :
    splitOnChar c (a ++ c :: b) = a :: splitOnChar c b := by
  induction a with
  | nil => simp [splitOnChar]
  | cons x xs ih =>
    have hx : ¬(x = c) := by
      intro he
      exact h (by rw [he]; exact List.mem_cons_self c xs)
    have hxs : c ∉ xs := fun hm => h (List.mem_cons_of_mem x hm)
    have hbeq : (x == c) = false := by simp [hx]
    simp only [List.cons_append, List.append_eq, splitOnChar, hbeq, Bool.false_eq_true,
      if_false]
    rw [ih hxs]

theorem dash_toList (a b : String) :
    (a ++ "-" ++ b).toList = a.toList ++ '-' :: b.toList := by
  simp [String.toList, String.data_append]

theorem months_index (m : Int) (h1 : 1 ≤ m) (h2 : m ≤ 12) :
    pyIndex months (m - 1) = some (specMonthAbbrev m) := by
  interval_cases m <;> decide

theorem format_date_eq (ys ms : String) (y m : Int)
    (hys : '-' ∉ ys.toList) (hms : '-' ∉ ms.toList)
    (hy : pyInt ys = some y) (hm : pyInt ms = some m)
    (h1 : 1 ≤ m) (h2 : m ≤ 12) :
    format_date (ys ++ "-" ++ ms) = some (specMonthAbbrev m ++ " " ++ toString y) := by
  have hsplit : splitOnChar '-' (ys ++ "-" ++ ms).toList = [ys.toList, ms.toList] := by
    rw [dash_toList, splitOnChar_sep _ _ _ hys, splitOnChar_no _ _ hms]
  have hy' : pyIntL ys.toList = some y := hy
  have hm' : pyIntL ms.toList = some m := hm
  simp only [format_date, hsplit, hy', hm', months_index m h1 h2]

/-- C7: for well-formed dates, format_duration yields
AbbrevMonth Year -- EndLabel with the standard 1-indexed three-letter English
month abbreviations, EndLabel being the formatted end date when given and the
literal Present when absent; in particular the two documented examples. -/
theorem c7_format_date_range (ys ms ye me : String) (y m y2 m2 : Int)
    (hys : '-' ∉ ys.toList) (hms : '-' ∉ ms.toList)
    (hye : '-' ∉ ye.toList) (hme : '-' ∉ me.toList)
    (hy : pyInt ys = some y) (hm : pyInt ms = some m)
    (hy2 : pyInt ye = some y2) (hm2 : pyInt me = some m2)
    (h1 : 1 ≤ m) (h2 : m ≤ 12) (h3 : 1 ≤ m2) (h4 : m2 ≤ 12) :
    format_duration (ys ++ "-" ++ ms) (some (ye ++ "-" ++ me)) =
      some (specMonthAbbrev m ++ " " ++ toString y ++ " -- " ++
            (specMonthAbbrev m2 ++ " " ++ toString y2)) ∧
    format_duration (ys ++ "-" ++ ms) none =
      some (specMonthAbbrev m ++ " " ++ toString y ++ " -- " ++ "Present") ∧
    format_duration "2022-05" (some "2024-08") = some "May 2022 -- Aug 2024" ∧
    format_duration "2025-01" none = some "Jan 2025 -- Present" := by
  have hne : ¬(ye ++ "-" ++ me = "") := by
    intro hc
    have hc2 := congrArg String.toList hc
    rw [dash_toList] at hc2
    simp [String.toList] at hc2
  refine ⟨?_, ?_, by decide, by decide⟩
  · simp only [format_duration, format_date_eq ys ms y m hys hms hy hm h1 h2,
      format_date_eq ye me y2 m2 hye hme hy2 hm2 h3 h4, if_neg hne]
  · simp only [format_duration, format_date_eq ys ms y m hys hms hy hm h1 h2]

theorem c7_witness :
    format_duration ("2022" ++ "-" ++ "05") (some ("2024" ++ "-" ++ "08")) =
      some (specMonthAbbrev 5 ++ " " ++ toString (2022 : Int) ++ " -- " ++
            (specMonthAbbrev 8 ++ " " ++ toString (2024 : Int))) ∧
    format_duration ("2022" ++ "-" ++ "05") none =
      some (specMonthAbbrev 5 ++ " " ++ toString (2022 : Int) ++ " -- " ++ "Present") ∧
    format_duration "2022-05" (some "2024-08") = some "May 2022 -- Aug 2024" ∧
    format_duration "2025-01" none = some "Jan 2025 -- Present" :=
  c7_format_date_range "2022" "05" "2024" "08" 2022 5 2024 8
    (by decide) (by decide) (by decide) (by decide)
    (by decide) (by decide) (by decide) (by decide)
    (by decide) (by decide) (by decide) (by decide)

end ResumeRender

namespace ResumeRender

theorem pyName_c9 (v : PyVal) (h : isC9elem v = true) : pyName v = .pstr (elemName v) := by
  cases v with
  | pstr s => rfl
  | pdict fields =>
    cases hf : dictLookup fields "name" with
    | none => simp [isC9elem, hf] at h
    | some x =>
      cases x with
      | pstr s => simp [pyName, elemName, hf]
      | pint n => simp [isC9elem, hf] at h
      | pbool b => simp [isC9elem, hf] at h
      | pnone => simp [isC9elem, hf] at h
      | plist xs => simp [isC9elem, hf] at h
      | pdict f2 => simp [isC9elem, hf] at h
  | pint n => simp [isC9elem] at h
  | pbool b => simp [isC9elem] at h
  | pnone => simp [isC9elem] at h
  | plist xs => simp [isC9elem] at h

theorem pyName_scalar (v : PyVal) (h : isScalar v = true) : pyName v = .pstr (pyStr v) := by
  cases v with
  | pstr s => rfl
  | pint n => rfl
  | pbool b => rfl
  | pnone => rfl
  | plist xs => simp [isScalar] at h
  | pdict fields => simp [isScalar] at h

theorem filter_map_pstr (l : List String) :
    (l.map PyVal.pstr).filter pyTruthy = (l.filter fun s => !(s == "")).map PyVal.pstr := by
  induction l with
  | nil => rfl
  | cons s rest ih =>
    by_cases hs : s = ""
    · subst hs
      simp [pyTruthy, ih]
    · simp [pyTruthy, hs, ih]

theorem joinStrs_map_pstr (sep : String) (l : List String) :
    joinStrs sep (l.map PyVal.pstr) = some (String.intercalate sep l) := by
  have hall : ∀ xs : List String, (xs.map PyVal.pstr).all isStrVal = true := by
    intro xs
    induction xs with
    | nil => rfl
    | cons a as ih => simp [isStrVal, ih]
  have hmap : ∀ xs : List String, (xs.map PyVal.pstr).map strValOf = xs := by
    intro xs
    induction xs with
    | nil => rfl
    | cons a as ih => simp [strValOf, ih]
  simp [joinStrs, hall l, hmap l]

/-- C9: on a list of plain strings and records with a string name field,
join_tech joins the nonempty names with a comma and a space, returns the empty
string for an absent or empty list, and maps the documented example to
Go, Rust. -/
theorem c9_join_tech (techs : List PyVal) (h : techs.all isC9elem = true) :
    join_tech (some techs) =
      some (String.intercalate ", " ((techs.map elemName).filter fun s => !(s == ""))) ∧
    join_tech none = some "" ∧ join_tech (some []) = some "" ∧
    join_tech (some [.pdict [("name", .pstr "Go")], .pstr "Rust", .pdict [("name", .pstr "")]]) =
      some "Go, Rust" := by
  refine ⟨?_, rfl, rfl, rfl⟩
  cases techs with
  | nil => rfl
  | cons t rest =>
    have hmap : (t :: rest).map pyName = ((t :: rest).map elemName).map PyVal.pstr := by
      rw [List.map_map]
      exact List.map_congr_left fun v hv => pyName_c9 v (List.all_eq_true.mp h v hv)
    simp only [join_tech, List.isEmpty_cons, Bool.false_eq_true, if_false]
    rw [hmap, filter_map_pstr, joinStrs_map_pstr]

theorem c9_witness :
    join_tech (some [.pdict [("name", .pstr "Go")], .pstr "Rust", .pdict [("name", .pstr "")]]) =
      some (String.intercalate ", "
        ((([.pdict [("name", .pstr "Go")], .pstr "Rust",
            .pdict [("name", .pstr "")]] : List PyVal).map elemName).filter
          fun s => !(s == ""))) ∧
    join_tech none = some "" ∧ join_tech (some []) = some "" ∧
    join_tech (some [.pdict [("name", .pstr "Go")], .pstr "Rust", .pdict [("name", .pstr "")]]) =
      some "Go, Rust" :=
  c9_join_tech [.pdict [("name", .pstr "Go")], .pstr "Rust", .pdict [("name", .pstr "")]]
    (by decide)

/-- C10 (implicit): elements that are neither records nor strings, such as
numbers and booleans, contribute their Python string representation to the
joined output instead of being skipped or failing, while empty plain strings
are dropped just like unnamed records. -/
theorem c10_join_tech_scalars (techs : List PyVal) (h : techs.all isScalar = true) :
    join_tech (some techs) =
      some (String.intercalate ", " ((techs.map pyStr).filter fun s => !(s == ""))) ∧
    join_tech (some [.pstr "Go", .pint 0, .pbool false, .pstr ""]) = some "Go, 0, False" := by
  refine ⟨?_, rfl⟩
  cases techs with
  | nil => rfl
  | cons t rest =>
    have hmap : (t :: rest).map pyName = ((t :: rest).map pyStr).map PyVal.pstr := by
      rw [List.map_map]
      exact List.map_congr_left fun v hv => pyName_scalar v (List.all_eq_true.mp h v hv)
    simp only [join_tech, List.isEmpty_cons, Bool.false_eq_true, if_false]
    rw [hmap, filter_map_pstr, joinStrs_map_pstr]

theorem c10_witness :
    join_tech (some [.pstr "Go", .pint 0, .pbool false, .pstr ""]) =
      some (String.intercalate ", "
        ((([.pstr "Go", .pint 0, .pbool false, .pstr ""] : List PyVal).map pyStr).filter
          fun s => !(s == ""))) ∧
    join_tech (some [.pstr "Go", .pint 0, .pbool false, .pstr ""]) = some "Go, 0, False" :=
  c10_join_tech_scalars [.pstr "Go", .pint 0, .pbool false, .pstr ""] (by decide)

/-- C1: the claim that no later substitution alters an earlier escape sequence
fails on the code: for the input holding one backslash, the designated escape
sequence is rewritten by the brace substitutions, so the output is
textbackslash followed by escaped braces instead of the intact sequence. -/
theorem c1_backslash_escape_corrupted :
    latex_escape "\\" = "\\textbackslash\\\x7b\\\x7d" ∧
    latex_escape "\\" ≠ "\\textbackslash\x7b\x7d" :=
  ⟨by decide, by decide⟩

/-- C2: the claim that a run writes to exactly the --output path fails on the
code: main forwards only the final component of the path, so a run asked to
write tmp/out.tex writes REPO/out.tex under the project root instead. -/
theorem c2_output_path_ignored :
    (main happyEnv ["REPO"] ["tmp", "out.tex"]).1 = 0 ∧
    (main happyEnv ["REPO"] ["tmp", "out.tex"]).2.written =
      some (["REPO", "out.tex"], "TEX") ∧
    (["REPO", "out.tex"] : List String) ≠ ["tmp", "out.tex"] :=
  ⟨rfl, rfl, by decide⟩

/-- C3: the claim that every month outside 1..12 is fatal fails on the code:
month 00 is accepted through Python negative indexing and formats as Dec,
while a non-numeric month and month 13 do fail. -/
theorem c3_month_zero_not_fatal :
    format_duration "2022-00" none = some "Dec 2022 -- Present" ∧
    format_duration "2022-13" none = none ∧
    format_duration "2022-ab" none = none :=
  ⟨by decide, by decide, by decide⟩

/-- C8: latex_escape maps the documented example to its escaped form, and the
empty and absent inputs to the empty string. -/
theorem c8_latex_escape_examples :
    latex_escape "50% & $5_\x7bx\x7d" = "50\\% \\& \\$5\\_\\\x7bx\\\x7d" ∧
    latex_escape "" = "" ∧
    latex_escape_arg (some "") = "" ∧
    latex_escape_arg none = "" :=
  ⟨by decide, rfl, rfl, rfl⟩

theorem c5_witness :
    ((main happyEnv ["REPO"] ["resume.tex"]).1 = 0 ∨
     (main happyEnv ["REPO"] ["resume.tex"]).1 = 1) ∧
    ((main happyEnv ["REPO"] ["resume.tex"]).1 = 0 ↔
      ∃ ctx s, load_all_configs happyEnv.dataDir = .ok ctx ∧ missingOf ctx = [] ∧
        happyEnv.templateLoad = .ok () ∧ happyEnv.renderTemplate ctx = .ok s ∧
        happyEnv.writeFile (["REPO"] ++ [pathName ["resume.tex"]]) s = .ok () ∧
        (main happyEnv ["REPO"] ["resume.tex"]).2.written =
          some (["REPO"] ++ [pathName ["resume.tex"]], s)) ∧
    ((main happyEnv ["REPO"] ["resume.tex"]).2.writeAttempted = true →
      ∃ ctx s, load_all_configs happyEnv.dataDir = .ok ctx ∧ missingOf ctx = [] ∧
        happyEnv.templateLoad = .ok () ∧ happyEnv.renderTemplate ctx = .ok s) ∧
    ((main happyEnv ["REPO"] ["resume.tex"]).2.writeAttempted = false →
      (main happyEnv ["REPO"] ["resume.tex"]).2.written = none) :=
  c5_exit_and_write_discipline happyEnv ["REPO"] ["resume.tex"]

end ResumeRender
